import Mathlib

/-!
Verification of the activation-dispatcher module
(`ivy/functional/ivy/experimental/activations.py`): the `logit` wrapper and
the `prelu` function with its broadcasting fallback.

Tensors are modelled as a shape (list of non-negative extents) together with
flat row-major data over exact rationals.  Exceptions are modelled by an
inductive `PyErr`; fallible operations return `Except PyErr _`.  Operations
that accept an output buffer additionally report how many times the buffer
was written, so frame conditions about the buffer can be stated.
-/

namespace Ivy

/-- Python exception classes relevant to the module: `ValueError` (the
shape-incompatibility failure raised by broadcasting), `AttributeError`
(raised when a plain float is asked for `.shape`), and a catch-all for any
other backend failure. -/
inductive PyErr where
  | valueError (msg : String)
  | attributeError (msg : String)
  | otherError (msg : String)
deriving DecidableEq

/-- Whether an exception is a `ValueError` (the only class `prelu` catches). -/
def PyErr.isValueError : PyErr → Bool
  | .valueError _ => true
  | _ => false

/-- An n-dimensional array: a shape and flat row-major data of rationals. -/
structure Tensor where
  shape : List Nat
  data : List Rat
deriving DecidableEq

/-- A boolean tensor, as produced by the elementwise comparison `x > 0`. -/
structure BTensor where
  shape : List Nat
  data : List Bool
deriving DecidableEq

/-- The `slope` argument of `prelu`: a plain Python float or an array. -/
inductive SlopeArg where
  | scalar (c : Rat)
  | arr (t : Tensor)
deriving DecidableEq

/-- Broadcast two extents (numpy rule): equal extents stay, an extent of 1
stretches to the other, anything else is incompatible. -/
def broadcastDim (a b : Nat) : Option Nat :=
  if a = b then some a else if a = 1 then some b else if b = 1 then some a else none

/-- Broadcast two shapes given in reversed (innermost-first) order. -/
def broadcastR : List Nat → List Nat → Option (List Nat)
  | [], t => some t
  | s, [] => some s
  | a :: s, b :: t =>
    match broadcastDim a b, broadcastR s t with
    | some d, some r => some (d :: r)
    | _, _ => none

/-- Broadcast two shapes (right-aligned, numpy semantics). -/
def broadcastShape (s t : List Nat) : Option (List Nat) :=
  (broadcastR s.reverse t.reverse).map List.reverse

/-- Row-major linearisation of a multi-index, both given innermost-first. -/
def ravelR : List Nat → List Nat → Nat
  | [], _ => 0
  | _ :: _, [] => 0
  | d :: ds, i :: is => i + d * ravelR ds is

/-- Inverse of `ravelR`: split a linear index over an innermost-first shape. -/
def unravelR : List Nat → Nat → List Nat
  | [], _ => []
  | d :: ds, k => (k % d) :: unravelR ds (k / d)

/-- Read the element of a (possibly lower-rank) operand addressed by a result
multi-index `idxR` (innermost-first).  Right-alignment is the truncation of
`zipWith`; an extent-1 axis of the operand absorbs any index via `% 1`. -/
def listBGet {α : Type} (dflt : α) (shape : List Nat) (data : List α) (idxR : List Nat) : α :=
  data.getD (ravelR shape.reverse (List.zipWith (fun i d => i % d) idxR shape.reverse)) dflt

/-- Broadcast-aware element access for rational tensors. -/
def Tensor.bgetR (t : Tensor) (idxR : List Nat) : Rat :=
  listBGet 0 t.shape t.data idxR

/-- Broadcast-aware element access for boolean tensors. -/
def BTensor.bgetR (c : BTensor) (idxR : List Nat) : Bool :=
  listBGet false c.shape c.data idxR

/-- The elementwise comparison `x > 0` of the source. -/
def Tensor.gtz (x : Tensor) : BTensor :=
  ⟨x.shape, x.data.map (fun v => decide (0 < v))⟩

/-- Elementwise broadcasting multiplication `x * y` of two arrays; raises
`ValueError` when the shapes cannot be broadcast together. -/
def mulT (a b : Tensor) : Except PyErr Tensor :=
  match broadcastShape a.shape b.shape with
  | none => .error (.valueError "operands could not be broadcast together")
  | some r => .ok ⟨r, (List.range r.prod).map (fun k =>
      a.bgetR (unravelR r.reverse k) * b.bgetR (unravelR r.reverse k))⟩

/-- The product `x * slope` of the source: scalar multiplication when `slope`
is a plain float, broadcasting multiplication when it is an array. -/
def mulSlope (x : Tensor) : SlopeArg → Except PyErr Tensor
  | .scalar c => .ok ⟨x.shape, x.data.map (fun v => v * c)⟩
  | .arr t => mulT x t

/-- `ivy.where(cond, a, b)`: elementwise select after broadcasting the three
operands together; raises `ValueError` when the shapes cannot align. -/
def whereSel (c : BTensor) (a b : Tensor) : Except PyErr Tensor :=
  match broadcastShape a.shape b.shape with
  | none => .error (.valueError "operands could not be broadcast together")
  | some r1 =>
    match broadcastShape c.shape r1 with
    | none => .error (.valueError "operands could not be broadcast together")
    | some r => .ok ⟨r, (List.range r.prod).map (fun k =>
        if c.bgetR (unravelR r.reverse k)
        then a.bgetR (unravelR r.reverse k)
        else b.bgetR (unravelR r.reverse k))⟩

/-- `t.reshape(ns)`: succeeds exactly when the element counts agree, keeping
the flat data; otherwise raises `ValueError` as numpy does. -/
def Tensor.reshape (t : Tensor) (ns : List Nat) : Except PyErr Tensor :=
  if t.shape.prod = ns.prod then .ok ⟨ns, t.data⟩
  else .error (.valueError "cannot reshape array")

/-- Loop body of the fallback of `prelu`: walk `x.shape`, appending every
extent to `new_shape` (both branches append `d`) and counting in `n` the
axes equal to `dim`. -/
def shapeScanGo (dim : Nat) : List Nat → List Nat → Nat → List Nat × Nat
  | [], acc, n => (acc, n)
  | d :: ds, acc, n =>
    if d = dim then shapeScanGo dim ds (acc ++ [d]) (n + 1)
    else shapeScanGo dim ds (acc ++ [d]) n

/-- The `(new_shape, n)` pair computed by the fallback loop of `prelu`. -/
def shapeScan (xshape : List Nat) (dim : Nat) : List Nat × Nat :=
  shapeScanGo dim xshape [] 0

/-- Body of the `except ValueError` handler of `prelu`, given the caught
exception `e`.  A plain-float `slope` has no `.shape`, so the very first
access raises `AttributeError`.  Otherwise, when `slope` is one-dimensional
and exactly one axis of `x` matches its length, `slope` is reshaped (into the
output buffer when one is supplied) and the select is retried; on any other
path the original exception is re-raised.  The second component counts
writes into the output buffer. -/
def preluFallback (x : Tensor) (slope : SlopeArg) (out : Option Unit) (e : PyErr) :
    Except PyErr Tensor × Nat :=
  match slope with
  | .scalar _ => (.error (.attributeError "float object has no attribute shape"), 0)
  | .arr s =>
    if s.shape.length = 1 then
      let dim := s.shape.headD 0
      let sc := shapeScan x.shape dim
      if sc.2 = 1 then
        match s.reshape sc.1 with
        | .error e2 => (.error e2, 0)
        | .ok rs =>
          let w1 : Nat := if out.isSome then 1 else 0
          match mulT x rs with
          | .error e3 => (.error e3, w1)
          | .ok xs =>
            match whereSel x.gtz x xs with
            | .error e4 => (.error e4, w1)
            | .ok r => (.ok r, w1 + (if out.isSome then 1 else 0))
      else (.error e, 0)
    else (.error e, 0)

/-- The `try`/`except ValueError` structure of `prelu`, abstracted over the
outcome of the primary select: a successful primary result is returned (one
buffer write when `out` is supplied), a `ValueError` enters the fallback
handler, and any other exception propagates unchanged. -/
def preluTry (primary : Except PyErr Tensor) (x : Tensor) (slope : SlopeArg)
    (out : Option Unit) : Except PyErr Tensor × Nat :=
  match primary with
  | .ok v => (.ok v, if out.isSome then 1 else 0)
  | .error (.valueError m) => preluFallback x slope out (.valueError m)
  | .error e => (.error e, 0)

/-- The primary path of `prelu`: `ivy.where(x > 0, x, x * slope)`; the
product is evaluated first, so a broadcasting failure there is the raised
exception. -/
def preluPrimary (x : Tensor) (slope : SlopeArg) : Except PyErr Tensor :=
  match mulSlope x slope with
  | .error e => .error e
  | .ok xs => whereSel x.gtz x xs

/-- `prelu(x, slope, out=out)` as in the source, paired with the number of
writes performed into the output buffer. -/
def prelu (x : Tensor) (slope : SlopeArg) (out : Option Unit) :
    Except PyErr Tensor × Nat :=
  preluTry (preluPrimary x slope) x slope out

/-- `logit(x, eps=eps, out=out)`: a pure pass-through to the active
backend `logit` (the backend is an explicit parameter, standing for the
`current_backend(x)` lookup), paired with the number of writes into the
output buffer (one exactly when the backend call succeeds and `out` is
supplied). -/
def logit {β : Type} (backendL : Tensor → Option Rat → Option Unit → Except PyErr β)
    (x : Tensor) (eps : Option Rat) (out : Option Unit) : Except PyErr β × Nat :=
  match backendL x eps out with
  | .ok r => (.ok r, if out.isSome then 1 else 0)
  | .error e => (.error e, 0)

/-- A pointwise logit value in float semantics: NaN, an infinity, or a
finite value. -/
inductive FVal where
  | nan
  | neginf
  | posinf
  | val (q : Rat)
deriving DecidableEq

/-- A tensor of pointwise logit results. -/
structure FTensor where
  shape : List Nat
  data : List FVal
deriving DecidableEq

/-- Modelled from the spec: the pointwise behaviour of the backend logit
kernel, absent from src/.  Outside [0,1] the result is NaN, at 0 it is minus
infinity, at 1 plus infinity, and on (0,1) the finite value log(x/(1-x)),
whose numeric map is abstracted as the parameter `f`. -/
def logitPoint (f : Rat → Rat) (v : Rat) : FVal :=
  if v < 0 ∨ 1 < v then .nan
  else if v = 0 then .neginf
  else if v = 1 then .posinf
  else .val (f v)

/-- `np.clip(v, lo, hi)` on a single value. -/
def clampQ (v lo hi : Rat) : Rat := min (max v lo) hi

/-- Elementwise clamp of a tensor to the interval [lo, hi]. -/
def clampT (t : Tensor) (lo hi : Rat) : Tensor :=
  ⟨t.shape, t.data.map (fun v => clampQ v lo hi)⟩

/-- Modelled from the spec: the `logit` implementation of the numeric backend,
absent from src/.  When `eps` is supplied the input is first clamped
elementwise to [eps, 1-eps] and the pointwise formula applied; when it is
absent the pointwise formula (with its NaN and infinity cases) is applied
directly. -/
def backendLogit (f : Rat → Rat) (x : Tensor) (eps : Option Rat)
    (_out : Option Unit) : Except PyErr FTensor :=
  match eps with
  | none => .ok ⟨x.shape, x.data.map (logitPoint f)⟩
  | some e => .ok ⟨x.shape, x.data.map (fun v => logitPoint f (clampQ v e (1 - e)))⟩

/-- Two successive `prelu` calls, each with its own argument triple; used to
state that calls do not interfere. -/
def preluSeq (a1 a2 : Tensor × SlopeArg × Option Unit) :
    (Except PyErr Tensor × Nat) × (Except PyErr Tensor × Nat) :=
  (prelu a1.1 a1.2.1 a1.2.2, prelu a2.1 a2.2.1 a2.2.2)

/-- Two successive `logit` calls against the same backend. -/
def logitSeq {β : Type} (backendL : Tensor → Option Rat → Option Unit → Except PyErr β)
    (a1 a2 : Tensor × Option Rat × Option Unit) :
    (Except PyErr β × Nat) × (Except PyErr β × Nat) :=
  (logit backendL a1.1 a1.2.1 a1.2.2, logit backendL a2.1 a2.2.1 a2.2.2)

/-! ### Index and broadcasting lemmas -/

theorem broadcastDim_self (a : Nat) : broadcastDim a a = some a := by
  simp [broadcastDim]

theorem broadcastR_self (r : List Nat) : broadcastR r r = some r := by
  induction r with
  | nil => rfl
  | cons a s ih => simp [broadcastR, broadcastDim_self, ih]

theorem broadcastShape_self (s : List Nat) : broadcastShape s s = some s := by
  simp [broadcastShape, broadcastR_self]

theorem zipWith_mod_unravelR (r : List Nat) (k : Nat) :
    List.zipWith (fun i d => i % d) (unravelR r k) r = unravelR r k := by
  induction r generalizing k with
  | nil => simp [unravelR]
  | cons d ds ih => simp [unravelR, List.zipWith, Nat.mod_mod_of_dvd _ dvd_rfl, ih]

theorem ravelR_unravelR (r : List Nat) (k : Nat) (hk : k < r.prod) :
    ravelR r (unravelR r k) = k := by
  induction r generalizing k with
  | nil => simp [List.prod_nil] at hk; simp [ravelR, unravelR, hk]
  | cons d ds ih =>
    have hd : 0 < d := by
      rcases Nat.eq_zero_or_pos d with h0 | h0
      · subst h0; simp [List.prod_cons] at hk
      · exact h0
    have hq : k / d < ds.prod := by
      rw [Nat.div_lt_iff_lt_mul hd]
      simpa [List.prod_cons, Nat.mul_comm] using hk
    simp [ravelR, unravelR, ih _ hq, Nat.mod_add_div]

theorem listBGet_self {α : Type} (dflt : α) (s : List Nat) (data : List α)
    (k : Nat) (hk : k < s.prod) :
    listBGet dflt s data (unravelR s.reverse k) = data.getD k dflt := by
  unfold listBGet
  rw [zipWith_mod_unravelR, ravelR_unravelR]
  rwa [List.prod_reverse]

theorem getD_of_lt {α : Type} (l : List α) (d : α) (i : Nat) (h : i < l.length) :
    l.getD i d = l[i] := by
  simp [List.getD_eq_getElem?_getD, List.getElem?_eq_getElem h]

theorem whereSel_gtz_scalar (x : Tensor) (c : Rat) (hx : x.data.length = x.shape.prod) :
    whereSel x.gtz x ⟨x.shape, x.data.map (fun v => v * c)⟩ =
      .ok ⟨x.shape, x.data.map (fun v => if 0 ≤ v then v else c * v)⟩ := by
  simp only [whereSel, Tensor.gtz, broadcastShape_self]
  refine congrArg Except.ok (congrArg (Tensor.mk x.shape) ?_)
  apply List.ext_getElem
  · simp [hx]
  · intro i h1 h2
    have hi : i < x.shape.prod := by simpa using h1
    have hilen : i < x.data.length := hx ▸ hi
    simp only [List.getElem_map, List.getElem_range, BTensor.bgetR, Tensor.bgetR]
    rw [listBGet_self _ _ _ _ hi, listBGet_self _ _ _ _ hi, listBGet_self _ _ _ _ hi]
    rw [getD_of_lt _ _ _ (by simpa using hilen), getD_of_lt _ _ _ hilen,
      getD_of_lt _ _ _ (by simpa using hilen)]
    simp only [List.getElem_map]
    by_cases h : (0 : Rat) < x.data[i]
    · simp [h, le_of_lt h]
    · have hv : x.data[i] ≤ 0 := le_of_not_lt h
      by_cases hz : x.data[i] = 0
      · simp [hz]
      · have hneg : x.data[i] < 0 := lt_of_le_of_ne hv hz
        simp [h, not_le.mpr hneg, mul_comm]

theorem mulT_same_ok (a b : Tensor) (h : b.shape = a.shape) :
    ∃ d, mulT a b = .ok ⟨a.shape, d⟩ := by
  unfold mulT
  rw [h, broadcastShape_self]
  exact ⟨_, rfl⟩

theorem whereSel_same_ok (c : BTensor) (a b : Tensor)
    (h1 : c.shape = a.shape) (h2 : b.shape = a.shape) :
    ∃ d, whereSel c a b = .ok ⟨a.shape, d⟩ := by
  simp only [whereSel, h1, h2, broadcastShape_self]
  exact ⟨_, rfl⟩

theorem shapeScanGo_fst (dim : Nat) (ds : List Nat) :
    ∀ (acc : List Nat) (n : Nat), (shapeScanGo dim ds acc n).1 = acc ++ ds := by
  induction ds with
  | nil => intro acc n; simp [shapeScanGo]
  | cons d rest ih =>
    intro acc n
    by_cases h : d = dim <;> simp [shapeScanGo, h, ih]

theorem shapeScan_fst (s : List Nat) (dim : Nat) : (shapeScan s dim).1 = s := by
  simp [shapeScan, shapeScanGo_fst]

theorem prelu_primary_scalar (x : Tensor) (c : Rat) (hx : x.data.length = x.shape.prod) :
    preluPrimary x (.scalar c) =
      .ok ⟨x.shape, x.data.map (fun v => if 0 ≤ v then v else c * v)⟩ := by
  simp only [preluPrimary, mulSlope]
  exact whereSel_gtz_scalar x c hx

theorem preluFallback_write_bounds (x : Tensor) (slope : SlopeArg) (out : Option Unit)
    (e : PyErr) :
    (preluFallback x slope out e).2 ≤ 2 ∧
    (out = none → (preluFallback x slope out e).2 = 0) ∧
    ((preluFallback x slope out e).1.isOk = false → (preluFallback x slope out e).2 = 0) ∧
    ((preluFallback x slope out e).2 = 2 → (preluFallback x slope out e).1.isOk = true) := by
  cases slope with
  | scalar c => simp [preluFallback, Except.isOk, Except.toBool]
  | arr s =>
    simp only [preluFallback]
    by_cases h1 : s.shape.length = 1
    · rw [if_pos h1]
      by_cases h2 : (shapeScan x.shape (s.shape.headD 0)).2 = 1
      · rw [if_pos h2]
        by_cases h3 : s.shape.prod = (shapeScan x.shape (s.shape.headD 0)).1.prod
        · have hr : s.reshape (shapeScan x.shape (s.shape.headD 0)).1 =
              .ok ⟨(shapeScan x.shape (s.shape.headD 0)).1, s.data⟩ := by
            unfold Tensor.reshape
            rw [if_pos h3]
          obtain ⟨d1, hmul⟩ := mulT_same_ok x ⟨(shapeScan x.shape (s.shape.headD 0)).1, s.data⟩
            (by simpa using shapeScan_fst x.shape (s.shape.headD 0))
          obtain ⟨d2, hwhere⟩ := whereSel_same_ok x.gtz x ⟨x.shape, d1⟩ rfl rfl
          simp only [hr, hmul, hwhere]
          cases out <;> simp [Except.isOk, Except.toBool]
        · have hr : s.reshape (shapeScan x.shape (s.shape.headD 0)).1 =
              .error (.valueError "cannot reshape array") := by
            unfold Tensor.reshape
            rw [if_neg h3]
          rw [hr]
          simp [Except.isOk, Except.toBool]
      · rw [if_neg h2]
        simp [Except.isOk, Except.toBool]
    · rw [if_neg h1]
      simp [Except.isOk, Except.toBool]

/-- C1: for every tensor `x` and scalar `slope`, `prelu(x, slope)` returns, at
every element position, the value of `x` when it is nonnegative and
`slope` times that value when it is negative (at zeros the result equals the
value of `x` there, namely zero). -/
theorem prelu_scalar_elementwise (x : Tensor) (c : Rat) (out : Option Unit)
    (hx : x.data.length = x.shape.prod) :
    (prelu x (.scalar c) out).1 =
      .ok ⟨x.shape, x.data.map (fun v => if 0 ≤ v then v else c * v)⟩ := by
  simp [prelu, preluTry, prelu_primary_scalar x c hx]

theorem prelu_scalar_elementwise_witness :
    ((⟨[3], [1, -2, 0]⟩ : Tensor).data.length = ([3] : List Nat).prod) ∧
      (prelu ⟨[3], [1, -2, 0]⟩ (.scalar 5) none).1 =
        .ok ⟨[3], ([1, -2, 0] : List Rat).map (fun v => if 0 ≤ v then v else 5 * v)⟩ :=
  ⟨by decide, prelu_scalar_elementwise ⟨[3], [1, -2, 0]⟩ 5 none (by decide)⟩

/-- C2: on `x` of shape (4,3) and one-dimensional `slope` of length 4 —
exactly one axis of `x` matches and the direct select fails — the claimed
elementwise-correct fallback result is not produced: the computed
`new_shape` equals the full shape of `x`, so reshaping the 4-element slope
into 12 elements fails and `prelu` raises instead of returning. -/
theorem prelu_fallback_reshape_fails :
    (prelu ⟨[4, 3], [1, -2, 3, -4, 5, -6, 7, -8, 9, -10, 11, -12]⟩
        (.arr ⟨[4], [1, 2, 3, 4]⟩) none).1 =
      .error (.valueError "cannot reshape array") := rfl

/-- C3: only a `ValueError` from the primary select is caught; an exception
of any other class propagates to the caller unchanged (and nothing is
written to the output buffer). -/
theorem prelu_noncatch_other_errors (e : PyErr) (x : Tensor) (slope : SlopeArg)
    (out : Option Unit) (h : e.isValueError = false) :
    preluTry (.error e) x slope out = (.error e, 0) := by
  cases e with
  | valueError m => simp [PyErr.isValueError] at h
  | attributeError m => rfl
  | otherError m => rfl

theorem prelu_noncatch_other_errors_witness :
    (PyErr.otherError "backend failure").isValueError = false ∧
      preluTry (.error (.otherError "backend failure")) ⟨[2], [1, 2]⟩ (.scalar 3) none =
        (.error (.otherError "backend failure"), 0) :=
  ⟨rfl, prelu_noncatch_other_errors _ ⟨[2], [1, 2]⟩ (.scalar 3) none rfl⟩

/-- C4 counterexample: with a plain-float `slope` (which is not
one-dimensional, so the fallback precondition fails), a caught `ValueError`
is not re-raised unchanged — the handler raises an `AttributeError`
instead. -/
theorem prelu_reraise_counterexample :
    (preluTry (.error (.valueError "shape mismatch")) ⟨[3], [1, 2, 3]⟩
        (.scalar 2) none).1 ≠
      .error (.valueError "shape mismatch") := by
  intro h
  exact PyErr.noConfusion (Except.error.inj h)

/-- C4 (amended): when the primary select raises a `ValueError` and `slope`
is an array whose fallback precondition fails (not one-dimensional, or the
number of matching axes differs from 1), the original exception is re-raised
unchanged; a plain-float `slope` instead triggers an `AttributeError`. -/
theorem prelu_reraise_amended (m : String) (x : Tensor) (s : Tensor) (out : Option Unit)
    (h : s.shape.length = 1 → (shapeScan x.shape (s.shape.headD 0)).2 ≠ 1) :
    preluTry (.error (.valueError m)) x (.arr s) out = (.error (.valueError m), 0) := by
  simp only [preluTry, preluFallback]
  by_cases h1 : s.shape.length = 1
  · rw [if_pos h1, if_neg (h h1)]
  · rw [if_neg h1]

theorem prelu_reraise_amended_witness :
    ((⟨[2, 2], [1, 2, 3, 4]⟩ : Tensor).shape.length = 1 →
        (shapeScan ([3] : List Nat) ((⟨[2, 2], [1, 2, 3, 4]⟩ : Tensor).shape.headD 0)).2 ≠ 1) ∧
      preluTry (.error (.valueError "shapes cannot align")) ⟨[3], [1, 2, 3]⟩
          (.arr ⟨[2, 2], [1, 2, 3, 4]⟩) none =
        (.error (.valueError "shapes cannot align"), 0) :=
  ⟨by decide, prelu_reraise_amended "shapes cannot align" ⟨[3], [1, 2, 3]⟩
    ⟨[2, 2], [1, 2, 3, 4]⟩ none (by decide)⟩

/-- C5 counterexample: on the (degenerate but reachable) successful fallback
path — `x` of shape (0,2), `slope` of shape (0,), an output buffer supplied —
the buffer is written twice in one call: once as the reshape destination and
once by the final select. -/
theorem prelu_double_write_counterexample :
    (prelu ⟨[0, 2], []⟩ (.arr ⟨[0], []⟩) (some ())).2 = 2 ∧
      ¬ (prelu ⟨[0, 2], []⟩ (.arr ⟨[0], []⟩) (some ())).2 ≤ 1 := by
  exact ⟨rfl, by decide⟩

/-- C5 (amended): each call of `prelu` writes into the output buffer at most
twice, and at most once except on the successful fallback path — two writes
can only occur when the primary select raised the caught `ValueError` (so
the fallback ran, using the buffer as reshape destination and then as the
select destination) and the call returned successfully; any failing call,
and any call without a buffer, performs no write at all; each call of
`logit` writes at most once, and never on failure. -/
theorem prelu_logit_write_bounds :
    (∀ (x : Tensor) (slope : SlopeArg) (out : Option Unit),
        (prelu x slope out).2 ≤ 2 ∧
        (out = none → (prelu x slope out).2 = 0) ∧
        ((prelu x slope out).1.isOk = false → (prelu x slope out).2 = 0) ∧
        ((prelu x slope out).2 = 2 →
          (∃ m, preluPrimary x slope = .error (.valueError m)) ∧
            (prelu x slope out).1.isOk = true)) ∧
      (∀ (β : Type) (b : Tensor → Option Rat → Option Unit → Except PyErr β)
          (x : Tensor) (eps : Option Rat) (out : Option Unit),
        (logit b x eps out).2 ≤ 1 ∧
        ((logit b x eps out).1.isOk = false → (logit b x eps out).2 = 0)) := by
  constructor
  · intro x slope out
    unfold prelu preluTry
    cases hp : preluPrimary x slope with
    | ok v => cases out <;> simp [Except.isOk, Except.toBool]
    | error e =>
      cases e with
      | valueError m =>
        obtain ⟨hb1, hb2, hb3, hb4⟩ := preluFallback_write_bounds x slope out (.valueError m)
        exact ⟨hb1, hb2, hb3, fun h2 => ⟨⟨m, rfl⟩, hb4 h2⟩⟩
      | attributeError m => simp [Except.isOk, Except.toBool]
      | otherError m => simp [Except.isOk, Except.toBool]
  · intro β b x eps out
    cases hb : b x eps out with
    | ok r => cases out <;> simp [logit, hb, Except.isOk, Except.toBool]
    | error e => simp [logit, hb, Except.isOk, Except.toBool]

theorem prelu_logit_write_bounds_witness :
    (prelu ⟨[2], [1, -1]⟩ (.scalar 3) none).2 = 0 :=
  (prelu_logit_write_bounds.1 ⟨[2], [1, -1]⟩ (.scalar 3) none).2.1 rfl

/-- C6: for every shape of `x` and every `dim`, the reshape target computed
by the fallback loop has the same rank as `x` and every entry equal to the
corresponding entry of the shape of `x` — it is identical to the shape of
`x`, whichever axis matched. -/
theorem prelu_new_shape_is_xshape (s : List Nat) (dim : Nat) :
    (shapeScan s dim).1 = s :=
  shapeScan_fst s dim

/-- C7: for 0 < eps < 1/2, `logit(x, eps)` equals `logit` applied (without
`eps`) to `x` clamped elementwise to [eps, 1-eps], exactly. -/
theorem logit_eps_clamp (f : Rat → Rat) (x : Tensor) (e : Rat) (out out2 : Option Unit)
    (h1 : 0 < e) (h2 : e < 1 / 2) :
    (logit (backendLogit f) x (some e) out).1 =
      (logit (backendLogit f) (clampT x e (1 - e)) none out2).1 := by
  simp [logit, backendLogit, clampT, List.map_map, Function.comp]

theorem logit_eps_clamp_witness :
    (0 : Rat) < 1 / 4 ∧ (1 : Rat) / 4 < 1 / 2 ∧
      (logit (backendLogit (fun v => v)) ⟨[1], [2]⟩ (some (1 / 4)) none).1 =
        (logit (backendLogit (fun v => v)) (clampT ⟨[1], [2]⟩ (1 / 4) (1 - 1 / 4)) none none).1 :=
  ⟨by norm_num, by norm_num,
    logit_eps_clamp (fun v => v) ⟨[1], [2]⟩ (1 / 4) none none (by norm_num) (by norm_num)⟩

/-- C8: `logit` is a pure pass-through — for every backend, input, `eps` and
output buffer, it returns exactly what the backend returns on the unmodified
arguments, so in particular any backend failure propagates unchanged. -/
theorem logit_passthrough (β : Type) (b : Tensor → Option Rat → Option Unit → Except PyErr β)
    (x : Tensor) (eps : Option Rat) (out : Option Unit) :
    (logit b x eps out).1 = b x eps out := by
  cases hb : b x eps out <;> simp [logit, hb]

/-- C9: when the primary select raises the caught `ValueError` and `slope`
is a plain float (no `.shape` attribute), the handler raises an
`AttributeError` instead of re-raising the original failure. -/
theorem prelu_scalar_shape_attribute_error :
    preluTry (.error (.valueError "operands could not be broadcast together"))
        ⟨[2], [1, -1]⟩ (.scalar (1 / 2)) (some ()) =
      (.error (.attributeError "float object has no attribute shape"), 0) := rfl

/-- C10: calls are independent and reentrant — in a pair of successive calls
(of `prelu`, or of `logit` against a fixed backend) the result of the second
call does not depend on the arguments of the first, and equal argument
triples give equal results. -/
theorem prelu_logit_calls_independent :
    (∀ (a a2 b : Tensor × SlopeArg × Option Unit),
        (preluSeq a b).2 = (preluSeq a2 b).2 ∧
          (a = a2 → (preluSeq a b).1 = (preluSeq a2 b).1)) ∧
      (∀ (β : Type) (bk : Tensor → Option Rat → Option Unit → Except PyErr β)
          (a a2 b : Tensor × Option Rat × Option Unit),
        (logitSeq bk a b).2 = (logitSeq bk a2 b).2 ∧
          (a = a2 → (logitSeq bk a b).1 = (logitSeq bk a2 b).1)) := by
  constructor
  · intro a a2 b
    exact ⟨rfl, fun h => by rw [h]⟩
  · intro β bk a a2 b
    exact ⟨rfl, fun h => by rw [h]⟩

theorem prelu_logit_calls_independent_witness :
    ((⟨[1], [1]⟩, SlopeArg.scalar 2, none) : Tensor × SlopeArg × Option Unit) =
        (⟨[1], [1]⟩, SlopeArg.scalar 2, none) ∧
      (preluSeq (⟨[1], [1]⟩, .scalar 2, none) (⟨[1], [-1]⟩, .scalar 3, none)).1 =
        (preluSeq (⟨[1], [1]⟩, .scalar 2, none) (⟨[1], [-1]⟩, .scalar 3, none)).1 :=
  ⟨rfl, (prelu_logit_calls_independent.1 (⟨[1], [1]⟩, .scalar 2, none)
    (⟨[1], [1]⟩, .scalar 2, none) (⟨[1], [-1]⟩, .scalar 3, none)).2 rfl⟩

end Ivy
